import Mathlib

/-!
Verification of the SolanaStakePulse data aggregation and caching layer.

This file gives a shallow embedding of the aggregation pipeline:
  * `src/utils/data_processor.py` (class `DataProcessor`): validator
    aggregation, network aggregation, stake-distribution aggregation;
  * `src/utils/solana_client.py` (class `SolanaClient`): the RPC fetch
    paths for validators, network info and stake accounts.

Modelling conventions:
  * Python floats are modelled as exact rationals (`ℚ`); the float literal
    `0.4` is modelled as `2 / 5`.  Integer quantities delivered by the
    Solana RPC (lamports, commission, slots, credit counters) are `ℕ`.
  * Python dicts whose key set matters to the claims (the `network_info`
    dict and the dict built by `SolanaClient.get_network_info`) are
    modelled as association lists `List (String × JVal)` over a JSON-like
    value type, with `d.get(k, default)` becoming an association-list
    lookup.  The typed getters (`getNumD`, `getObjD`, `getArrD`) return
    the default when the key is absent; in this codebase a present key
    always carries a value of the expected shape, so returning the
    default on a shape mismatch matches the Python behaviour on every
    input the program constructs.
  * Dicts with a fixed field set (a raw validator entry, a raw stake
    account) are structures of `Option`-typed fields; an absent field is
    `none` and `v.get(field, default)` is `Option.getD`.
  * Fallible code (RPC calls, `DataProcessor.__init__` on `None` inputs)
    is modelled in `Except String`.  The remote RPC endpoint is an
    abstract `RpcBackend` record assigning to each remote method either a
    result or an error.
  * `pandas.DataFrame` columns are modelled as lists in row order;
    `rank(ascending=False, method='min')` of a value `s` is
    `1 + (number of entries strictly greater than s)`, and
    `sort_values(ascending=False)` followed by `head(n)` on one column is
    `List.take n` of the descending `mergeSort` of that column.
  * Wall-clock fields (`updated_at`, DB timestamps) and the relational
    store internals are outside the embedding; database write-backs are
    modelled by returning the record that would be persisted.
-/

/-- JSON-like values, the dynamic dict/list/number/string shapes carried by
RPC responses in the Python source. -/
inductive JVal where
  | num (q : ℚ)
  | str (s : String)
  | arr (elems : List JVal)
  | obj (fields : List (String × JVal))

/-- Python `d.get(k)` on a dict modelled as an association list: the value at
the first matching key, or `none`. -/
def dictGet (d : List (String × JVal)) (k : String) : Option JVal :=
  (d.find? (fun p => p.1 == k)).map (fun p => p.2)

/-- Python `float(d.get(k, dflt))` where the value, when present, is a number. -/
def getNumD (d : List (String × JVal)) (k : String) (dflt : ℚ) : ℚ :=
  match dictGet d k with
  | some (JVal.num q) => q
  | _ => dflt

/-- Python `d.get(k, \x7b\x7d)` where the value, when present, is a dict. -/
def getObjD (d : List (String × JVal)) (k : String) : List (String × JVal) :=
  match dictGet d k with
  | some (JVal.obj fs) => fs
  | _ => []

/-- Python `d.get(k, [])` where the value, when present, is a list. -/
def getArrD (d : List (String × JVal)) (k : String) : List JVal :=
  match dictGet d k with
  | some (JVal.arr l) => l
  | _ => []

/-- One raw validator entry as returned by the `getVoteAccounts` RPC call:
every field the processor reads, each possibly absent.  Lamports, slots,
commission and credit counters are non-negative integers on the wire. -/
structure RawValidator where
  nodePubkey : Option String
  votePubkey : Option String
  activatedStake : Option ℕ
  commission : Option ℕ
  lastVote : Option ℕ
  rootSlot : Option ℕ
  epochCredits : Option (List (ℕ × ℕ))
deriving DecidableEq

/-- The `validators_info` dict: `current` and `delinquent` raw lists, either
possibly absent (`validators_info.get('current', [])`). -/
structure ValidatorsInfo where
  current : Option (List RawValidator)
  delinquent : Option (List RawValidator)
deriving DecidableEq

/-- One row of the processed validator DataFrame built by
`DataProcessor._process_validators`. -/
structure ProcessedValidator where
  nodePubkey : String
  votePubkey : String
  activatedStake : ℚ
  stakePercentage : ℚ
  commission : ℕ
  lastVote : ℕ
  rootSlot : ℕ
  credits : ℤ
  status : String
  rank : ℕ
  estimatedAPY : ℚ
deriving DecidableEq

/-- Embeds `all_validators = validators_info.get('current', []) +
validators_info.get('delinquent', [])` (data_processor.py line 35). -/
def allValidators (vi : ValidatorsInfo) : List RawValidator :=
  vi.current.getD [] ++ vi.delinquent.getD []

/-- Embeds `float(validator.get('activatedStake', 0)) / 10**9`
(data_processor.py lines 41 and 45). -/
def stakeSol (v : RawValidator) : ℚ :=
  (v.activatedStake.getD 0 : ℚ) / 10 ^ 9

/-- Embeds `epoch_credits[-1][1] - epoch_credits[-1][0] if epoch_credits else 0`
(data_processor.py line 52), with `epoch_credits = v.get('epochCredits', [])`. -/
def creditsOf (v : RawValidator) : ℤ :=
  match (v.epochCredits.getD []).getLast? with
  | some e => (e.2 : ℤ) - (e.1 : ℤ)
  | none => 0

/-- pandas `.round(2)`: round to two decimal places. -/
def round2 (q : ℚ) : ℚ :=
  (round (q * 100) : ℤ) / 100

/-- Embeds `DataProcessor._process_validators` (data_processor.py lines 27-81).
Builds one processed row per raw validator, in input order.  The `rank`
column is pandas `rank(ascending=False, method='min')`: one plus the number
of rows with strictly greater stake.  The `estimatedAPY` column reads
`network_info.get('inflation_rate', {}).get('total', 8.0)` (line 78, note
the default `8.0`).  When the row list is empty the rank/APY columns are
not added in the source; here the enclosing map over `[]` produces `[]`
either way. -/
def processValidators (vi : ValidatorsInfo) (ni : List (String × JVal)) :
    List ProcessedValidator :=
  let allV := allValidators vi
  let total := (allV.map stakeSol).sum
  let inflRate := getNumD (getObjD ni "inflation_rate") "total" 8
  allV.map (fun v =>
    { nodePubkey := v.nodePubkey.getD "Unknown"
      votePubkey := v.votePubkey.getD "Unknown"
      activatedStake := stakeSol v
      stakePercentage := if 0 < total then stakeSol v / total * 100 else 0
      commission := v.commission.getD 0
      lastVote := v.lastVote.getD 0
      rootSlot := v.rootSlot.getD 0
      credits := creditsOf v
      status := if v ∈ vi.current.getD [] then "Active" else "Delinquent"
      rank := 1 + ((allV.map stakeSol).filter (fun t => stakeSol v < t)).length
      estimatedAPY := round2 (inflRate * (1 - (v.commission.getD 0 : ℚ) / 100)) })

/-- The dict returned by `DataProcessor._process_network_info`
(data_processor.py lines 135-170), flattened: `epoch_current` is
`result['epoch']['current']`, `staking_ratio_` is
`result['supply']['staking_ratio']` (trailing underscore for lexical
reasons), and so on.  The wall-clock `updated_at` field and the redundant
`inflation.epoch` copy of the epoch number are omitted. -/
structure NetworkOut where
  epoch_current : ℚ
  slots_in_epoch : ℚ
  slot_index : ℚ
  progress_percentage : ℚ
  hours_remaining : ℚ
  inflation_total : ℚ
  inflation_validator : ℚ
  inflation_foundation : ℚ
  supply_total : ℚ
  supply_circulating : ℚ
  supply_staked : ℚ
  staking_ratio_ : ℚ
  validators_active : ℕ
  validators_delinquent : ℕ
  top10 : ℚ
  top20 : ℚ
  top50 : ℚ
  current_slot : ℚ
  node_count : ℕ
deriving DecidableEq

/-- Embeds `supply_info.get('value', {}).get(k, 0) / 10**9 if supply_info.get('value')
else 0` (data_processor.py lines 110-111): the guard is Python truthiness of
the `value` entry, so an absent key or an empty dict gives 0. -/
def supplyFieldOf (supply_info : List (String × JVal)) (k : String) : ℚ :=
  match dictGet supply_info "value" with
  | some (JVal.obj fs) => if fs.isEmpty then 0 else getNumD fs k 0 / 10 ^ 9
  | _ => 0

/-- Stake held by the `n` largest validators as a percentage of total stake
(data_processor.py lines 125-127):
`sorted.head(n)['activatedStake'].sum() / total_staked * 100 if
total_staked > 0 else 0`. -/
def topNshare (sorted : List ℚ) (total : ℚ) (n : ℕ) : ℚ :=
  if 0 < total then (sorted.take n).sum / total * 100 else 0

/-- Stakes of the processed validators sorted in descending order
(`sort_values('activatedStake', ascending=False)`, data_processor.py
line 124, projected to the one column the concentration code reads). -/
def sortedStakesDesc (pvs : List ProcessedValidator) : List ℚ :=
  (pvs.map (fun p => p.activatedStake)).mergeSort (fun a b => decide (b ≤ a))

/-- Embeds `DataProcessor._process_network_info` (data_processor.py lines 83-170).
`ni` is the raw `network_info` dict, `pvs` is `self.processed_validators`. -/
def processNetworkInfo (ni : List (String × JVal))
    (pvs : List ProcessedValidator) : NetworkOut :=
  let epoch_info := getObjD ni "epoch_info"
  let current_epoch := getNumD epoch_info "epoch" 0
  let slots_in_epoch := getNumD epoch_info "slotsInEpoch" 0
  let slot_index := getNumD epoch_info "slotIndex" 0
  let epoch_progress :=
    if 0 < slots_in_epoch then slot_index / slots_in_epoch * 100 else 0
  -- seconds_per_slot = 0.4; hours = slots_remaining * 0.4 / 3600
  let hours_remaining := (slots_in_epoch - slot_index) * (2 / 5) / 3600
  let inflation_rate := getObjD ni "inflation_rate"
  let supply_info := getObjD ni "supply_info"
  let total_supply := supplyFieldOf supply_info "total"
  let circulating_supply := supplyFieldOf supply_info "circulating"
  let total_staked :=
    if pvs = [] then 0 else (pvs.map (fun p => p.activatedStake)).sum
  let staking :=
    if 0 < circulating_supply then total_staked / circulating_supply * 100 else 0
  let active :=
    if pvs = [] then 0 else (pvs.filter (fun p => p.status == "Active")).length
  let delinquent :=
    if pvs = [] then 0
    else (pvs.filter (fun p => p.status == "Delinquent")).length
  let sorted := sortedStakesDesc pvs
  { epoch_current := current_epoch
    slots_in_epoch := slots_in_epoch
    slot_index := slot_index
    progress_percentage := epoch_progress
    hours_remaining := hours_remaining
    inflation_total := getNumD inflation_rate "total" 0
    inflation_validator := getNumD inflation_rate "validator" 0
    inflation_foundation := getNumD inflation_rate "foundation" 0
    supply_total := total_supply
    supply_circulating := circulating_supply
    supply_staked := total_staked
    staking_ratio_ := staking
    validators_active := active
    validators_delinquent := delinquent
    top10 := if pvs = [] then 0 else topNshare sorted total_staked 10
    top20 := if pvs = [] then 0 else topNshare sorted total_staked 20
    top50 := if pvs = [] then 0 else topNshare sorted total_staked 50
    current_slot := getNumD ni "slot_info" 0
    node_count := (getArrD ni "cluster_nodes").length }

/-- The `account` sub-dict of a raw stake account
(`account.get('account', {})`). -/
structure RawAccountBody where
  lamports : Option ℕ
  data : Option JVal
deriving Inhabited

/-- One raw stake account as returned by the `getProgramAccounts` RPC call. -/
structure RawStakeAccount where
  pubkey : Option String
  account : Option RawAccountBody

/-- One entry of `stake_accounts_data` (data_processor.py lines 210-214). -/
structure StakeAccountOut where
  pubkey : String
  balance : ℚ
  parsed : Option JVal

/-- The `distribution` dict of the processed stake info. -/
structure StakeDistOut where
  categories : List String
  counts : List ℕ
  amounts : List ℚ

/-- The dict returned by `DataProcessor._process_stake_accounts`. -/
structure StakeInfoOut where
  total_stake : ℚ
  total_accounts : ℕ
  distribution : StakeDistOut
  accounts : List StakeAccountOut

/-- Embeds `account.get('account', {}).get('lamports', 0) / 10**9`
(data_processor.py lines 199-201). -/
def stakeBalance (a : RawStakeAccount) : ℚ :=
  (((a.account.getD default).lamports.getD 0 : ℕ) : ℚ) / 10 ^ 9

/-- The `parsed` metadata blob (data_processor.py lines 204-207):
`data.get('parsed', {}).get('info', {})` when the `data` field is a dict
containing `parsed`, else `None`.  In this codebase a present `parsed`
value is always a dict, so the non-dict fallback is never taken. -/
def parsedOf (a : RawStakeAccount) : Option JVal :=
  match (a.account.getD default).data.getD (JVal.obj []) with
  | JVal.obj fs =>
      match dictGet fs "parsed" with
      | some (JVal.obj pfs) => some ((dictGet pfs "info").getD (JVal.obj []))
      | some _ => some (JVal.obj [])
      | none => none
  | _ => none

/-- The empty result returned when `not self.stake_accounts`
(data_processor.py lines 183-194). -/
def emptyStakeInfoOut : StakeInfoOut :=
  { total_stake := 0
    total_accounts := 0
    distribution := { categories := [], counts := [], amounts := [] }
    accounts := [] }

/-- Bucket labels of the stake-size distribution (data_processor.py
line 223). -/
def stakeBucketLabels : List String :=
  ["0-100", "100-1K", "1K-10K", "10K-100K", "100K+"]

/-- Embeds `pd.cut(balance, [0, 100, 1000, 10000, 100000, inf], right=False)`
(data_processor.py lines 222-225): the index of the half-open bucket
holding `b`, or `none` (pandas NaN, dropped by the groupby) for `b < 0`. -/
def bucketIndex (b : ℚ) : Option ℕ :=
  if b < 0 then none
  else if b < 100 then some 0
  else if b < 1000 then some 1
  else if b < 10000 then some 2
  else if b < 100000 then some 3
  else some 4

/-- Embeds `DataProcessor._process_stake_accounts` (data_processor.py
lines 172-253).  `s` is the constructor argument `stake_accounts`; both
`None` and `[]` are falsy and take the early empty return.  The groupby
over the categorical bucket column yields one row per bucket label in
label order, counting rows and summing balances. -/
def processStakeAccounts (s : Option (List RawStakeAccount)) : StakeInfoOut :=
  match s with
  | none => emptyStakeInfoOut
  | some [] => emptyStakeInfoOut
  | some l =>
    let data := l.map (fun a =>
      ({ pubkey := a.pubkey.getD "Unknown"
         balance := stakeBalance a
         parsed := parsedOf a } : StakeAccountOut))
    let balances := data.map (fun d => d.balance)
    { total_stake := balances.sum
      total_accounts := l.length
      distribution :=
        { categories := stakeBucketLabels
          counts := (List.range 5).map (fun i =>
            (balances.filter (fun b => bucketIndex b = some i)).length)
          amounts := (List.range 5).map (fun i =>
            (balances.filter (fun b => bucketIndex b = some i)).sum) }
      accounts := data.take 100 }

/-- The three processed results held by a `DataProcessor` instance. -/
structure ProcessedAll where
  validators : List ProcessedValidator
  network : NetworkOut
  stakeInfo : StakeInfoOut

/-- The error raised by attribute access on `None`
(`None.get(...)` in `_process_validators` / `_process_network_info`). -/
def attrErrMsg : String :=
  "AttributeError: NoneType object has no attribute get"

/-- Embeds `DataProcessor.__init__` (data_processor.py lines 11-25).  The three
arguments may each be `None`.  A `None` `validators_info` raises at
line 35; with `validators_info` present, a `None` `network_info` raises at
line 78 (non-empty row list) or line 91 (empty row list) - in every case an
`AttributeError` escapes the constructor.  A `None` `stake_accounts` is
merely falsy and processes to the empty stake info. -/
def dataProcessorInit (v : Option ValidatorsInfo)
    (n : Option (List (String × JVal)))
    (s : Option (List RawStakeAccount)) : Except String ProcessedAll :=
  match v with
  | none => Except.error attrErrMsg
  | some vi =>
    match n with
    | none => Except.error attrErrMsg
    | some ni =>
      let pvs := processValidators vi ni
      Except.ok
        { validators := pvs
          network := processNetworkInfo ni pvs
          stakeInfo := processStakeAccounts s }

/-- The remote RPC endpoint, abstracted: each remote method either returns
a result or raises (`_make_rpc_request` raises on transport failure or on a
structured `error` response, solana_client.py lines 46-56). -/
structure RpcBackend where
  epochInfo : Except String (List (String × JVal))
  inflationRate : Except String (List (String × JVal))
  supply : Except String (List (String × JVal))
  slot : Except String JVal
  clusterNodes : Except String (List JVal)
  voteAccounts : Except String ValidatorsInfo
  programAccounts : Except String (List RawStakeAccount)

/-- Embeds `SolanaClient.get_validators`, RPC branch (solana_client.py line 81):
`self._make_rpc_request("getVoteAccounts")` with no exception handling, so
an RPC failure propagates to the caller unchanged. -/
def getValidatorsFetch (rpc : RpcBackend) : Except String ValidatorsInfo :=
  rpc.voteAccounts

/-- The `processed_data` dict built by `SolanaClient.get_network_info`
(solana_client.py lines 140-203) from the five raw RPC responses and the
validators response.  Its top-level keys are `epoch`, `inflation`,
`supply`, `validators`, `performance` and `raw_data`; the raw
`epoch_info` / `inflation_rate` / `supply_info` / `cluster_nodes`
responses sit nested under `raw_data`. -/
def buildNetworkDict (ei ir si : List (String × JVal)) (sl : JVal)
    (cn : List JVal) (va : ValidatorsInfo) : List (String × JVal) :=
  let current_epoch := getNumD ei "epoch" 0
  let slots_in_epoch := getNumD ei "slotsInEpoch" 0
  let slot_index := getNumD ei "slotIndex" 0
  let epoch_progress :=
    if 0 < slots_in_epoch then slot_index / slots_in_epoch * 100 else 0
  -- "Assuming avg 2 seconds per slot" (line 147)
  let hours_remaining := (slots_in_epoch - slot_index) * 2 / 3600
  let total_inflation := getNumD ir "total" 0 * 100
  let validator_inflation := getNumD ir "validator" 0 * 100
  let foundation_inflation := getNumD ir "foundation" 0 * 100
  let total_supply := getNumD (getObjD si "value") "total" 0 / 10 ^ 9
  let circulating_supply := getNumD (getObjD si "value") "circulating" 0 / 10 ^ 9
  let total_stake := ((allValidators va).map stakeSol).sum
  let stakedShare := if 0 < total_supply then total_stake / total_supply else 0
  [ ("epoch", JVal.obj
      [ ("current", JVal.num current_epoch)
      , ("slots_in_epoch", JVal.num slots_in_epoch)
      , ("slot_index", JVal.num slot_index)
      , ("progress_percentage", JVal.num epoch_progress)
      , ("hours_remaining", JVal.num hours_remaining) ])
  , ("inflation", JVal.obj
      [ ("total", JVal.num total_inflation)
      , ("validator", JVal.num validator_inflation)
      , ("foundation", JVal.num foundation_inflation) ])
  , ("supply", JVal.obj
      [ ("total", JVal.num total_supply)
      , ("circulating", JVal.num circulating_supply)
      , ("staked", JVal.num total_stake)
      , ("staking_ratio", JVal.num stakedShare) ])
  , ("validators", JVal.obj
      [ ("active", JVal.num ((va.current.getD []).length : ℚ))
      , ("delinquent", JVal.num ((va.delinquent.getD []).length : ℚ)) ])
  , ("performance", JVal.obj [("current_slot", sl)])
  , ("raw_data", JVal.obj
      [ ("epoch_info", JVal.obj ei)
      , ("inflation_rate", JVal.obj ir)
      , ("supply_info", JVal.obj si)
      , ("cluster_nodes", JVal.arr cn) ]) ]

/-- Body of the `try` block of `SolanaClient.get_network_info`
(solana_client.py lines 130-211): the six remote calls in source order,
short-circuiting on the first failure, then the assembled dict.  The
best-effort `store_network_info` write has no observable effect on the
returned value. -/
def fetchNetworkInfoCore (rpc : RpcBackend) :
    Except String (List (String × JVal)) :=
  match rpc.epochInfo with
  | Except.error e => Except.error e
  | Except.ok ei =>
    match rpc.inflationRate with
    | Except.error e => Except.error e
    | Except.ok ir =>
      match rpc.supply with
      | Except.error e => Except.error e
      | Except.ok si =>
        match rpc.slot with
        | Except.error e => Except.error e
        | Except.ok sl =>
          match rpc.clusterNodes with
          | Except.error e => Except.error e
          | Except.ok cn =>
            match rpc.voteAccounts with
            | Except.error e => Except.error e
            | Except.ok va => Except.ok (buildNetworkDict ei ir si sl cn va)

/-- Embeds `SolanaClient.get_network_info`, RPC branch (solana_client.py
lines 129-213): any exception inside the block is re-raised wrapped as
`"Failed to get network info: ..."` - the fetch still fails. -/
def fetchNetworkInfo (rpc : RpcBackend) :
    Except String (List (String × JVal)) :=
  match fetchNetworkInfoCore rpc with
  | Except.ok d => Except.ok d
  | Except.error e => Except.error ("Failed to get network info: " ++ e)

/-- The write-back block of `SolanaClient.get_stake_accounts`
(solana_client.py lines 274-286): fetch epoch info, run
`DataProcessor(None, None, result)`, and on success hand the processed
stake info and the epoch to `store_stake_accounts`.  Returns what would be
persisted; any failure inside is caught by the enclosing inner `except`. -/
def stakeStoreAttempt (rpc : RpcBackend) (result : List RawStakeAccount) :
    Except String (StakeInfoOut × ℚ) :=
  match rpc.epochInfo with
  | Except.error e => Except.error e
  | Except.ok ei =>
    match dataProcessorInit none none (some result) with
    | Except.error e => Except.error e
    | Except.ok proc => Except.ok (proc.stakeInfo, getNumD ei "epoch" 0)

/-- Embeds `SolanaClient.get_stake_accounts`, RPC branch (solana_client.py
lines 246-293).  First component: the returned list - the RPC result on
success, `[]` when the scan raises (the outer `except` catches everything
and degrades to an empty list).  Second component: what reached
`store_stake_accounts` - `none` when the write-back block was skipped
(empty result) or hit its exception handler. -/
def getStakeAccountsFetch (rpc : RpcBackend) :
    List RawStakeAccount × Option (StakeInfoOut × ℚ) :=
  match rpc.programAccounts with
  | Except.error _ => ([], none)
  | Except.ok result =>
    if result.isEmpty then (result, none)
    else
      match stakeStoreAttempt rpc result with
      | Except.ok stored => (result, some stored)
      | Except.error _ => (result, none)

/-! ## General lemmas about the embedding -/

/-- Summing `s / t * c` over a list pulls the division and multiplication
out of the sum. -/
lemma list_sum_map_div_mul (l : List ℚ) (t c : ℚ) :
    (l.map (fun s => s / t * c)).sum = l.sum / t * c := by
  induction l with
  | nil => simp
  | cons x xs ih => simp [ih, add_div, add_mul]

/-- Pointwise sums commute with list sums. -/
lemma list_sum_map_add {M : Type} [AddCommMonoid M] {I : Type} (l : List I)
    (f g : I → M) :
    (l.map (fun i => f i + g i)).sum = (l.map f).sum + (l.map g).sum := by
  induction l with
  | nil => simp
  | cons x xs ih =>
      simp only [List.map_cons, List.sum_cons, ih]
      exact add_add_add_comm (f x) (g x) ((xs.map f).sum) ((xs.map g).sum)

/-- A converted stake is non-negative: it is a natural number of lamports
divided by `10 ^ 9`. -/
lemma stakeSol_nonneg (v : RawValidator) : 0 ≤ stakeSol v := by
  unfold stakeSol
  positivity

/-- Every row of the processed validator list carries a non-negative
stake. -/
lemma processValidators_stake_nonneg (vi : ValidatorsInfo)
    (ni : List (String × JVal)) :
    ∀ p ∈ processValidators vi ni, 0 ≤ p.activatedStake := by
  intro p hp
  simp only [processValidators, List.mem_map] at hp
  obtain ⟨v, _, rfl⟩ := hp
  exact stakeSol_nonneg v

/-- For lists of non-negative rationals, an initial-segment sum is monotone
in the segment length. -/
lemma sum_take_le_sum_take (l : List ℚ) (h : ∀ x ∈ l, 0 ≤ x) {m n : ℕ}
    (hmn : m ≤ n) : (l.take m).sum ≤ (l.take n).sum := by
  obtain ⟨k, rfl⟩ := Nat.exists_eq_add_of_le hmn
  rw [List.take_add, List.sum_append]
  refine le_add_of_nonneg_right (List.sum_nonneg fun x hx => ?_)
  exact h x (List.drop_subset m l (List.take_subset k (l.drop m) hx))

/-- For lists of non-negative rationals, an initial-segment sum is at most
the full sum. -/
lemma sum_take_le_sum (l : List ℚ) (h : ∀ x ∈ l, 0 ≤ x) (n : ℕ) :
    (l.take n).sum ≤ l.sum := by
  conv_rhs => rw [← List.take_append_drop n l]
  rw [List.sum_append]
  exact le_add_of_nonneg_right
    (List.sum_nonneg fun x hx => h x (List.drop_subset n l hx))

/-! ## Concrete fixtures used by witnesses and counterexamples -/

/-- A raw validator whose only present field is its activated stake. -/
def mkStakeValidator (lamports : ℕ) : RawValidator :=
  ⟨none, none, some lamports, none, none, none, none⟩

/-- A raw validator with every optional field absent. -/
def emptyRawValidator : RawValidator :=
  ⟨none, none, none, none, none, none, none⟩

/-- One current validator holding 2 SOL of stake. -/
def viSingle : ValidatorsInfo :=
  ⟨some [mkStakeValidator 2000000000], none⟩

/-! ## C2: stake percentages sum to 100 (or are all 0) -/

/-- Claim C2: for every validator list, the stake-percentage column of
`DataProcessor._process_validators` sums to exactly 100 (over exact
rational arithmetic) whenever the total activated stake is positive, and
every entry of it is 0 when the total activated stake is 0. -/
theorem claim2_stake_percentage_sum (vi : ValidatorsInfo)
    (ni : List (String × JVal)) :
    (0 < ((allValidators vi).map stakeSol).sum →
      ((processValidators vi ni).map (fun p => p.stakePercentage)).sum = 100) ∧
    (((allValidators vi).map stakeSol).sum = 0 →
      ∀ p ∈ processValidators vi ni, p.stakePercentage = 0) := by
  constructor
  · intro h
    have key : ((processValidators vi ni).map (fun p => p.stakePercentage)) =
        ((allValidators vi).map stakeSol).map
          (fun s => s / ((allValidators vi).map stakeSol).sum * 100) := by
      simp only [processValidators, List.map_map]
      refine List.map_congr_left (fun v _ => ?_)
      simp only [Function.comp_apply]
      exact if_pos h
    rw [key, list_sum_map_div_mul, div_self (ne_of_gt h), one_mul]
  · intro h p hp
    simp only [processValidators, List.mem_map] at hp
    obtain ⟨v, _, rfl⟩ := hp
    simp only [h, lt_irrefl, if_false]

/-- Witness for C2 at a concrete one-validator input with positive total
stake. -/
theorem claim2_stake_percentage_sum_witness :
    ((processValidators viSingle []).map (fun p => p.stakePercentage)).sum = 100 :=
  (claim2_stake_percentage_sum viSingle []).1 (by
    norm_num [viSingle, allValidators, stakeSol, mkStakeValidator])

/-! ## C5: credits come from the last epoch-credit entry -/

/-- Claim C5: positionally, every processed validator's `credits` field is
the second counter minus the first counter of the last entry of the raw
validator's `epochCredits` list, and 0 when that list is absent or
empty. -/
theorem claim5_credits_last_entry (vi : ValidatorsInfo)
    (ni : List (String × JVal)) (i : ℕ) :
    ((processValidators vi ni)[i]?).map (fun p => p.credits) =
      ((allValidators vi)[i]?).map (fun v =>
        match (v.epochCredits.getD []).getLast? with
        | some e => (e.2 : ℤ) - (e.1 : ℤ)
        | none => 0) := by
  simp only [processValidators, List.getElem?_map, Option.map_map]
  cases h : (allValidators vi)[i]? with
  | none => rfl
  | some v => simp [Function.comp, creditsOf]

/-! ## C1: rank semantics -/

/-- Four validators with stakes 100, 50, 50, 10 lamports: a tie for rank 2
followed by a fourth validator. -/
def viRankCx : ValidatorsInfo :=
  ⟨some [mkStakeValidator 100, mkStakeValidator 50,
         mkStakeValidator 50, mkStakeValidator 10], none⟩

/-- C1 counterexample: with stakes 100, 50, 50, 10 the `rank` column is
`[1, 2, 2, 4]` - rank 4 is assigned while rank 3 is skipped, so the rank
is not dense as the claim states (pandas `method='min'` is competition
ranking, not dense ranking). -/
theorem claim1_counterexample :
    (processValidators viRankCx []).map (fun p => p.rank) = [1, 2, 2, 4] ∧
    4 ∈ (processValidators viRankCx []).map (fun p => p.rank) ∧
    3 ∉ (processValidators viRankCx []).map (fun p => p.rank) := by
  have h : (processValidators viRankCx []).map (fun p => p.rank) = [1, 2, 2, 4] := by
    norm_num [processValidators, allValidators, stakeSol, viRankCx,
      mkStakeValidator, List.filter]
  refine ⟨h, ?_, ?_⟩ <;> rw [h] <;> decide

/-- Claim C1 (amended): the rank assigned by
`DataProcessor._process_validators` is competition ("min") rank by
descending stake, not dense rank: each row's rank is one plus the number
of rows with strictly greater stake.  Consequently the validator with the
largest stake has rank 1 and validators with equal stake share the same
(lowest applicable) rank number, but after a group of `k` tied validators
the next `k - 1` rank numbers are skipped. -/
theorem claim1_rank_competition (vi : ValidatorsInfo)
    (ni : List (String × JVal)) :
    (∀ p ∈ processValidators vi ni,
      p.rank = 1 + (((allValidators vi).map stakeSol).filter
        (fun t => p.activatedStake < t)).length) ∧
    (∀ p ∈ processValidators vi ni, ∀ q ∈ processValidators vi ni,
      p.activatedStake = q.activatedStake → p.rank = q.rank) ∧
    (∀ p ∈ processValidators vi ni,
      (∀ q ∈ processValidators vi ni, q.activatedStake ≤ p.activatedStake) →
      p.rank = 1) := by
  have hchar : ∀ p ∈ processValidators vi ni,
      p.rank = 1 + (((allValidators vi).map stakeSol).filter
        (fun t => p.activatedStake < t)).length := by
    intro p hp
    simp only [processValidators, List.mem_map] at hp
    obtain ⟨v, _, rfl⟩ := hp
    rfl
  refine ⟨hchar, ?_, ?_⟩
  · intro p hp q hq heq
    rw [hchar p hp, hchar q hq, heq]
  · intro p hp hmax
    rw [hchar p hp]
    have hnil : ((allValidators vi).map stakeSol).filter
        (fun t => p.activatedStake < t) = [] := by
      rw [List.filter_eq_nil_iff]
      intro t ht
      rcases List.mem_map.mp ht with ⟨v, hv, rfl⟩
      have hq : (fun w =>
          ({ nodePubkey := w.nodePubkey.getD "Unknown"
             votePubkey := w.votePubkey.getD "Unknown"
             activatedStake := stakeSol w
             stakePercentage :=
               if 0 < ((allValidators vi).map stakeSol).sum then
                 stakeSol w / ((allValidators vi).map stakeSol).sum * 100
               else 0
             commission := w.commission.getD 0
             lastVote := w.lastVote.getD 0
             rootSlot := w.rootSlot.getD 0
             credits := creditsOf w
             status := if w ∈ vi.current.getD [] then "Active" else "Delinquent"
             rank := 1 + (((allValidators vi).map stakeSol).filter
               (fun t => stakeSol w < t)).length
             estimatedAPY := round2 (getNumD (getObjD ni "inflation_rate") "total" 8 *
               (1 - (w.commission.getD 0 : ℚ) / 100)) } : ProcessedValidator)) v
            ∈ processValidators vi ni := by
        simp only [processValidators]
        exact List.mem_map_of_mem _ hv
      have := hmax _ hq
      simpa using not_lt.mpr this
    rw [hnil]
    rfl

/-- The processed row produced for the single validator of `viSingle`. -/
def pvSingle : ProcessedValidator :=
  { nodePubkey := "Unknown", votePubkey := "Unknown", activatedStake := 2,
    stakePercentage := 100, commission := 0, lastVote := 0, rootSlot := 0,
    credits := 0, status := "Active", rank := 1, estimatedAPY := 8 }

/-- Witness for C1 (amended), at the concrete input `viSingle`: its single
row is the stake maximum and receives rank 1. -/
theorem claim1_rank_competition_witness : pvSingle.rank = 1 :=
  (claim1_rank_competition viSingle []).2.2 pvSingle
    (by norm_num [processValidators, allValidators, viSingle, mkStakeValidator,
      stakeSol, round2, getNumD, getObjD, dictGet, pvSingle, creditsOf])
    (by
      intro q hq
      norm_num [processValidators, allValidators, viSingle, mkStakeValidator,
        stakeSol, round2, getNumD, getObjD, dictGet, creditsOf] at hq
      norm_num [hq, pvSingle])

/-! ## C3: stake concentration invariant -/

/-- The descending stake sort is a permutation of the stake column, so it
has the same sum. -/
lemma sortedStakesDesc_sum (pvs : List ProcessedValidator) :
    (sortedStakesDesc pvs).sum = (pvs.map (fun p => p.activatedStake)).sum := by
  unfold sortedStakesDesc
  exact (List.mergeSort_perm _ _).sum_eq

/-- Members of the descending stake sort are stakes of processed rows. -/
lemma sortedStakesDesc_mem {pvs : List ProcessedValidator} {x : ℚ}
    (hx : x ∈ sortedStakesDesc pvs) :
    x ∈ pvs.map (fun p => p.activatedStake) := by
  unfold sortedStakesDesc at hx
  exact ((List.mergeSort_perm _ _).mem_iff).mp hx

/-- Claim C3: for every non-empty processed validator list, the
concentration percentages of `DataProcessor._process_network_info` satisfy
`top10 ≤ top20 ≤ top50 ≤ 100`. -/
theorem claim3_concentration (vi : ValidatorsInfo) (ni : List (String × JVal))
    (h : processValidators vi ni ≠ []) :
    (processNetworkInfo ni (processValidators vi ni)).top10 ≤
      (processNetworkInfo ni (processValidators vi ni)).top20 ∧
    (processNetworkInfo ni (processValidators vi ni)).top20 ≤
      (processNetworkInfo ni (processValidators vi ni)).top50 ∧
    (processNetworkInfo ni (processValidators vi ni)).top50 ≤ 100 := by
  have hstake : ∀ x ∈ sortedStakesDesc (processValidators vi ni), 0 ≤ x := by
    intro x hx
    rcases List.mem_map.mp (sortedStakesDesc_mem hx) with ⟨p, hp, rfl⟩
    exact processValidators_stake_nonneg vi ni p hp
  simp only [processNetworkInfo, if_neg h]
  set pvs := processValidators vi ni with hpvs
  set sorted := sortedStakesDesc pvs with hsorted
  set total := (pvs.map (fun p => p.activatedStake)).sum with htotal
  have htnn : (0 : ℚ) ≤ total := by
    rw [htotal]
    refine List.sum_nonneg (fun x hx => ?_)
    rcases List.mem_map.mp hx with ⟨p, hp, rfl⟩
    exact processValidators_stake_nonneg vi ni p hp
  rcases htnn.lt_or_eq with hpos | hzero
  · have hmono : ∀ m n : ℕ, m ≤ n →
        topNshare sorted total m ≤ topNshare sorted total n := by
      intro m n hmn
      unfold topNshare
      rw [if_pos hpos, if_pos hpos]
      have := sum_take_le_sum_take sorted hstake hmn
      exact mul_le_mul_of_nonneg_right
        ((div_le_div_iff_of_pos_right hpos).mpr this) (by norm_num)
    refine ⟨hmono 10 20 (by norm_num), hmono 20 50 (by norm_num), ?_⟩
    unfold topNshare
    rw [if_pos hpos]
    have hle : (sorted.take 50).sum ≤ total := by
      rw [htotal, ← sortedStakesDesc_sum pvs, ← hsorted]
      exact sum_take_le_sum sorted hstake 50
    calc (sorted.take 50).sum / total * 100
        ≤ 1 * 100 := by
          exact mul_le_mul_of_nonneg_right ((div_le_one hpos).mpr hle) (by norm_num)
      _ = 100 := one_mul 100
  · have hneg : ¬ (0 : ℚ) < total := by
      rw [← hzero]
      exact lt_irrefl 0
    unfold topNshare
    simp only [if_neg hneg]
    norm_num

/-- Witness for C3 at the concrete non-empty input `viSingle`. -/
theorem claim3_concentration_witness :
    (processNetworkInfo [] (processValidators viSingle [])).top10 ≤
      (processNetworkInfo [] (processValidators viSingle [])).top20 ∧
    (processNetworkInfo [] (processValidators viSingle [])).top20 ≤
      (processNetworkInfo [] (processValidators viSingle [])).top50 ∧
    (processNetworkInfo [] (processValidators viSingle [])).top50 ≤ 100 :=
  claim3_concentration viSingle []
    (by simp [processValidators, allValidators, viSingle, mkStakeValidator])

/-! ## C4: stake distribution reproduces the input -/

/-- A converted stake-account balance is non-negative: natural lamports
divided by `10 ^ 9`. -/
lemma stakeBalance_nonneg (a : RawStakeAccount) : 0 ≤ stakeBalance a := by
  unfold stakeBalance
  positivity

/-- A non-negative balance falls into exactly one of the five buckets. -/
lemma bucketIndex_cases (b : ℚ) (hb : 0 ≤ b) :
    bucketIndex b = some 0 ∨ bucketIndex b = some 1 ∨ bucketIndex b = some 2 ∨
    bucketIndex b = some 3 ∨ bucketIndex b = some 4 := by
  unfold bucketIndex
  split_ifs with h0 h1 h2 h3 h4
  · exact absurd h0 (not_lt.mpr hb)
  · exact Or.inl rfl
  · exact Or.inr (Or.inl rfl)
  · exact Or.inr (Or.inr (Or.inl rfl))
  · exact Or.inr (Or.inr (Or.inr (Or.inl rfl)))
  · exact Or.inr (Or.inr (Or.inr (Or.inr rfl)))

/-- Over the five bucket indices, the membership indicator of a
non-negative balance sums to one. -/
lemma bucket_indicator_count (b : ℚ) (hb : 0 ≤ b) :
    ((List.range 5).map
      (fun i => if bucketIndex b = some i then (1 : ℕ) else 0)).sum = 1 := by
  rcases bucketIndex_cases b hb with h | h | h | h | h <;> rw [h] <;> decide

/-- Over the five bucket indices, a non-negative balance contributes itself
exactly once. -/
lemma bucket_indicator_amount (b : ℚ) (hb : 0 ≤ b) :
    ((List.range 5).map
      (fun i => if bucketIndex b = some i then b else 0)).sum = b := by
  rcases bucketIndex_cases b hb with h | h | h | h | h <;>
    rw [h, show List.range 5 = [0, 1, 2, 3, 4] from rfl] <;> simp

/-- Total of the per-bucket counts over a list of non-negative balances. -/
lemma bucket_counts_sum (bs : List ℚ) (hb : ∀ b ∈ bs, 0 ≤ b) :
    ((List.range 5).map (fun i =>
      (bs.filter (fun b => bucketIndex b = some i)).length)).sum = bs.length := by
  induction bs with
  | nil => simp
  | cons x xs ih =>
    have hx : (0 : ℚ) ≤ x := hb x (List.mem_cons_self x xs)
    have hxs : ∀ b ∈ xs, 0 ≤ b := fun b h => hb b (List.mem_cons_of_mem x h)
    have hstep : ∀ i : ℕ,
        ((x :: xs).filter (fun b => bucketIndex b = some i)).length
          = (if bucketIndex x = some i then (1 : ℕ) else 0)
            + (xs.filter (fun b => bucketIndex b = some i)).length := by
      intro i
      by_cases h : bucketIndex x = some i <;>
        simp [List.filter_cons, h, Nat.add_comm]
    simp only [hstep]
    rw [list_sum_map_add, bucket_indicator_count x hx, ih hxs]
    simp [List.length_cons, Nat.add_comm]

/-- Total of the per-bucket sums over a list of non-negative balances. -/
lemma bucket_amounts_sum (bs : List ℚ) (hb : ∀ b ∈ bs, 0 ≤ b) :
    ((List.range 5).map (fun i =>
      (bs.filter (fun b => bucketIndex b = some i)).sum)).sum = bs.sum := by
  induction bs with
  | nil => simp
  | cons x xs ih =>
    have hx : (0 : ℚ) ≤ x := hb x (List.mem_cons_self x xs)
    have hxs : ∀ b ∈ xs, 0 ≤ b := fun b h => hb b (List.mem_cons_of_mem x h)
    have hstep : ∀ i : ℕ,
        ((x :: xs).filter (fun b => bucketIndex b = some i)).sum
          = (if bucketIndex x = some i then x else 0)
            + (xs.filter (fun b => bucketIndex b = some i)).sum := by
      intro i
      by_cases h : bucketIndex x = some i <;>
        simp [List.filter_cons, h, add_comm]
    simp only [hstep]
    rw [list_sum_map_add, bucket_indicator_amount x hx, ih hxs]
    simp [List.sum_cons]

/-- Claim C4: the stake-distribution output of
`DataProcessor._process_stake_accounts` reproduces its input exactly: the
bucket counts sum to the number of input samples and the bucket amounts
sum to the total of the input balances. -/
theorem claim4_distribution_reproduces_input
    (s : Option (List RawStakeAccount)) :
    (processStakeAccounts s).distribution.counts.sum = (s.getD []).length ∧
    (processStakeAccounts s).distribution.amounts.sum =
      ((s.getD []).map stakeBalance).sum := by
  match s with
  | none => exact ⟨rfl, rfl⟩
  | some [] => exact ⟨rfl, rfl⟩
  | some (a :: l) =>
    have hnn : ∀ b ∈ (a :: l).map stakeBalance, 0 ≤ b := by
      intro b hbm
      rcases List.mem_map.mp hbm with ⟨x, _, rfl⟩
      exact stakeBalance_nonneg x
    constructor
    · have hcounts := bucket_counts_sum ((a :: l).map stakeBalance) hnn
      simp only [processStakeAccounts, List.map_map, Option.getD_some]
      simpa [Function.comp, List.length_map] using hcounts
    · have hamounts := bucket_amounts_sum ((a :: l).map stakeBalance) hnn
      simp only [processStakeAccounts, List.map_map, Option.getD_some]
      simpa [Function.comp] using hamounts

/-! ## C6: defaults for missing optional fields -/

/-- C6 counterexample: for a validator with every optional field absent and
a network dict without an `inflation_rate` entry, the estimated-yield
column is `8` (the hard-coded `8.0` default of data_processor.py line 78),
not the `0` default the claim requires for numeric fields derived from
absent optional inputs. -/
theorem claim6_counterexample :
    (processValidators ⟨some [emptyRawValidator], none⟩ []).map
      (fun p => p.estimatedAPY) = [8] ∧ (8 : ℚ) ≠ 0 := by
  constructor
  · norm_num [processValidators, allValidators, stakeSol, round2, getNumD,
      getObjD, dictGet, emptyRawValidator]
  · norm_num

/-- Claim C6 (amended): aggregation is total on inputs with missing
optional fields and substitutes 0 / empty-collection defaults for them,
with one exception: the inflation rate read for the estimated yield
defaults to `8.0` when absent, so for an absent `inflation_rate` the
estimated yield is `8.0 * (1 - commission / 100)` - here `8` - rather
than 0.  All network-aggregation fields of an empty dict and the
stake-aggregation output of an absent sample list are zero/empty. -/
theorem claim6_missing_field_defaults (ni : List (String × JVal))
    (h : dictGet ni "inflation_rate" = none) :
    processValidators ⟨some [emptyRawValidator], none⟩ ni =
      [{ nodePubkey := "Unknown", votePubkey := "Unknown", activatedStake := 0,
         stakePercentage := 0, commission := 0, lastVote := 0, rootSlot := 0,
         credits := 0, status := "Active", rank := 1, estimatedAPY := 8 }] ∧
    processNetworkInfo [] [] =
      { epoch_current := 0, slots_in_epoch := 0, slot_index := 0,
        progress_percentage := 0, hours_remaining := 0, inflation_total := 0,
        inflation_validator := 0, inflation_foundation := 0, supply_total := 0,
        supply_circulating := 0, supply_staked := 0, staking_ratio_ := 0,
        validators_active := 0, validators_delinquent := 0, top10 := 0,
        top20 := 0, top50 := 0, current_slot := 0, node_count := 0 } ∧
    processStakeAccounts none = emptyStakeInfoOut := by
  refine ⟨?_, ?_, rfl⟩
  · have hobj : getObjD ni "inflation_rate" = [] := by
      unfold getObjD
      rw [h]
    norm_num [processValidators, allValidators, stakeSol, round2, getNumD,
      hobj, dictGet, emptyRawValidator, creditsOf]
  · norm_num [processNetworkInfo, getObjD, getNumD, getArrD, dictGet,
      supplyFieldOf, sortedStakesDesc, topNshare]

/-- Witness for C6 (amended) at the concrete empty network dict. -/
theorem claim6_missing_field_defaults_witness :
    processValidators ⟨some [emptyRawValidator], none⟩ [] =
      [{ nodePubkey := "Unknown", votePubkey := "Unknown", activatedStake := 0,
         stakePercentage := 0, commission := 0, lastVote := 0, rootSlot := 0,
         credits := 0, status := "Active", rank := 1, estimatedAPY := 8 }] :=
  (claim6_missing_field_defaults [] rfl).1

/-! ## C7: stake-account scan errors degrade, other fetch errors propagate -/

/-- Claim C7: whenever the `getProgramAccounts` scan raises (for any remote
error, including the structured limit-exceeded error), the stake-account
fetch returns the empty list instead of raising; the validator fetch is
the raw `getVoteAccounts` call whose errors propagate unchanged, and an
error in the network-info fetch still propagates (wrapped in the
`"Failed to get network info"` message). -/
theorem claim7_scan_error_degrades (rpc : RpcBackend) (e : String)
    (h : rpc.programAccounts = Except.error e) :
    (getStakeAccountsFetch rpc).1 = [] ∧
    getValidatorsFetch rpc = rpc.voteAccounts ∧
    (∀ e2 : String, rpc.epochInfo = Except.error e2 →
      fetchNetworkInfo rpc = Except.error ("Failed to get network info: " ++ e2)) := by
  refine ⟨?_, rfl, ?_⟩
  · unfold getStakeAccountsFetch
    rw [h]
  · intro e2 h2
    unfold fetchNetworkInfo fetchNetworkInfoCore
    rw [h2]

/-- An RPC backend on which every remote call fails with the structured
scan-limit error. -/
def rpcAllDown : RpcBackend :=
  ⟨Except.error "limit exceeded", Except.error "limit exceeded",
   Except.error "limit exceeded", Except.error "limit exceeded",
   Except.error "limit exceeded", Except.error "limit exceeded",
   Except.error "limit exceeded"⟩

/-- Witness for C7 at a concrete failing backend. -/
theorem claim7_scan_error_degrades_witness :
    (getStakeAccountsFetch rpcAllDown).1 = [] ∧
    fetchNetworkInfo rpcAllDown =
      Except.error ("Failed to get network info: " ++ "limit exceeded") :=
  ⟨(claim7_scan_error_degrades rpcAllDown "limit exceeded" rfl).1,
   (claim7_scan_error_degrades rpcAllDown "limit exceeded" rfl).2.2
     "limit exceeded" rfl⟩

/-! ## C9: the write-back block of the stake fetch always fails -/

/-- Claim C9: constructing `DataProcessor` with a `None` validators input
raises (attribute access on `None`) instead of substituting defaults;
hence the write-back block inside the RPC stake-account fetch - which
constructs `DataProcessor(None, None, result)` - always hits its exception
handler: nothing is ever handed to `store_stake_accounts`, and the fetch
still returns the RPC result. -/
theorem claim9_writeback_always_fails (rpc : RpcBackend)
    (result : List RawStakeAccount)
    (h : rpc.programAccounts = Except.ok result) :
    dataProcessorInit none none (some result) = Except.error attrErrMsg ∧
    getStakeAccountsFetch rpc = (result, none) := by
  refine ⟨rfl, ?_⟩
  unfold getStakeAccountsFetch
  rw [h]
  cases hres : result.isEmpty with
  | true => simp only [hres, if_true]
  | false =>
    simp only [hres, Bool.false_eq_true, if_false]
    unfold stakeStoreAttempt
    cases hei : rpc.epochInfo with
    | error e => rfl
    | ok ei => rfl

/-- A stake account with 5 SOL, and a backend that returns it. -/
def sampleStakeAccount : RawStakeAccount :=
  ⟨some "acct", some ⟨some 5000000000, none⟩⟩

/-- An RPC backend whose program-account scan succeeds with one account. -/
def rpcScanOk : RpcBackend :=
  ⟨Except.ok [("epoch", JVal.num 7)], Except.ok [], Except.ok [],
   Except.ok (JVal.num 0), Except.ok [], Except.ok ⟨none, none⟩,
   Except.ok [sampleStakeAccount]⟩

/-- Witness for C9 at a concrete backend with a successful scan. -/
theorem claim9_writeback_always_fails_witness :
    dataProcessorInit none none (some [sampleStakeAccount]) =
      Except.error attrErrMsg ∧
    getStakeAccountsFetch rpcScanOk = ([sampleStakeAccount], none) :=
  claim9_writeback_always_fails rpcScanOk [sampleStakeAccount] rfl

/-! ## C8: per-slot duration of the two time-remaining computations -/

/-- Epoch info with 3600 slots in the epoch and none elapsed. -/
def eiSlots : List (String × JVal) :=
  [("slotsInEpoch", JVal.num 3600), ("slotIndex", JVal.num 0)]

/-- C8 counterexample: on the same epoch info (3600 slots remaining), the
Aggregator computes 0.4 hours remaining (0.4 s/slot, data_processor.py
line 101) while the network-info fetch computes 2 hours (2 s/slot,
solana_client.py line 148) - the two paths do not use the same fixed
per-slot duration. -/
theorem claim8_counterexample :
    (processNetworkInfo [("epoch_info", JVal.obj eiSlots)] []).hours_remaining ≠
    getNumD (getObjD (buildNetworkDict eiSlots [] [] (JVal.num 0) []
      ⟨none, none⟩) "epoch") "hours_remaining" 0 := by
  show ((3600 : ℚ) - 0) * (2 / 5) / 3600 ≠ ((3600 : ℚ) - 0) * 2 / 3600
  norm_num

/-- Claim C8 (amended): both time-remaining computations have the shape
`(slots_in_epoch - slot_index) * seconds_per_slot / 3600`, but with
different fixed per-slot constants: 0.4 seconds in
`DataProcessor._process_network_info` and 2 seconds in
`SolanaClient.get_network_info`, so on identical epoch info the client
value is always 5 times the aggregator value. -/
theorem claim8_slot_time_constants (ni : List (String × JVal))
    (pvs : List ProcessedValidator) (ir si : List (String × JVal))
    (sl : JVal) (cn : List JVal) (va : ValidatorsInfo) :
    (processNetworkInfo ni pvs).hours_remaining =
      (getNumD (getObjD ni "epoch_info") "slotsInEpoch" 0 -
       getNumD (getObjD ni "epoch_info") "slotIndex" 0) * (2 / 5) / 3600 ∧
    getNumD (getObjD (buildNetworkDict (getObjD ni "epoch_info") ir si sl cn va)
        "epoch") "hours_remaining" 0 =
      (getNumD (getObjD ni "epoch_info") "slotsInEpoch" 0 -
       getNumD (getObjD ni "epoch_info") "slotIndex" 0) * 2 / 3600 ∧
    getNumD (getObjD (buildNetworkDict (getObjD ni "epoch_info") ir si sl cn va)
        "epoch") "hours_remaining" 0 =
      5 * (processNetworkInfo ni pvs).hours_remaining := by
  refine ⟨rfl, rfl, ?_⟩
  show (getNumD (getObjD ni "epoch_info") "slotsInEpoch" 0 -
      getNumD (getObjD ni "epoch_info") "slotIndex" 0) * 2 / 3600 =
    5 * ((getNumD (getObjD ni "epoch_info") "slotsInEpoch" 0 -
      getNumD (getObjD ni "epoch_info") "slotIndex" 0) * (2 / 5) / 3600)
  ring

/-! ## C10: the fetch output keys never reach the aggregation -/

/-- The network aggregation applied to any dict built by the network-info
fetch reads only defaults: zero for every epoch, inflation and supply
figure, since the keys it looks up sit nested under `raw_data`. -/
lemma processNetwork_of_buildDict (ei ir si : List (String × JVal))
    (sl : JVal) (cn : List JVal) (va : ValidatorsInfo)
    (pvs : List ProcessedValidator) :
    (processNetworkInfo (buildNetworkDict ei ir si sl cn va) pvs).epoch_current = 0 ∧
    (processNetworkInfo (buildNetworkDict ei ir si sl cn va) pvs).slots_in_epoch = 0 ∧
    (processNetworkInfo (buildNetworkDict ei ir si sl cn va) pvs).slot_index = 0 ∧
    (processNetworkInfo (buildNetworkDict ei ir si sl cn va) pvs).progress_percentage = 0 ∧
    (processNetworkInfo (buildNetworkDict ei ir si sl cn va) pvs).hours_remaining = 0 ∧
    (processNetworkInfo (buildNetworkDict ei ir si sl cn va) pvs).inflation_total = 0 ∧
    (processNetworkInfo (buildNetworkDict ei ir si sl cn va) pvs).inflation_validator = 0 ∧
    (processNetworkInfo (buildNetworkDict ei ir si sl cn va) pvs).inflation_foundation = 0 ∧
    (processNetworkInfo (buildNetworkDict ei ir si sl cn va) pvs).supply_total = 0 ∧
    (processNetworkInfo (buildNetworkDict ei ir si sl cn va) pvs).supply_circulating = 0 ∧
    (processNetworkInfo (buildNetworkDict ei ir si sl cn va) pvs).staking_ratio_ = 0 ∧
    (processNetworkInfo (buildNetworkDict ei ir si sl cn va) pvs).current_slot = 0 ∧
    (processNetworkInfo (buildNetworkDict ei ir si sl cn va) pvs).node_count = 0 := by
  refine ⟨rfl, rfl, rfl, rfl, ?_, rfl, rfl, rfl, rfl, rfl, rfl, rfl, rfl⟩
  show ((0 : ℚ) - 0) * (2 / 5) / 3600 = 0
  norm_num

/-- Claim C10: every value successfully returned by the RPC path of the
network-info fetch, when processed by the Aggregator's network
aggregation, yields zero defaults for the epoch number, slot counts,
progress percentage, hours remaining, inflation rates, supply figures and
staking ratio: the aggregation reads `epoch_info`, `inflation_rate`,
`supply_info`, `cluster_nodes` and `slot_info` at the top level, while the
fetch nests those under `raw_data` and names its own top-level keys
differently. -/
theorem claim10_fetch_processor_key_mismatch (rpc : RpcBackend)
    (d : List (String × JVal)) (h : fetchNetworkInfo rpc = Except.ok d)
    (pvs : List ProcessedValidator) :
    (processNetworkInfo d pvs).epoch_current = 0 ∧
    (processNetworkInfo d pvs).slots_in_epoch = 0 ∧
    (processNetworkInfo d pvs).slot_index = 0 ∧
    (processNetworkInfo d pvs).progress_percentage = 0 ∧
    (processNetworkInfo d pvs).hours_remaining = 0 ∧
    (processNetworkInfo d pvs).inflation_total = 0 ∧
    (processNetworkInfo d pvs).inflation_validator = 0 ∧
    (processNetworkInfo d pvs).inflation_foundation = 0 ∧
    (processNetworkInfo d pvs).supply_total = 0 ∧
    (processNetworkInfo d pvs).supply_circulating = 0 ∧
    (processNetworkInfo d pvs).staking_ratio_ = 0 ∧
    (processNetworkInfo d pvs).current_slot = 0 ∧
    (processNetworkInfo d pvs).node_count = 0 := by
  unfold fetchNetworkInfo fetchNetworkInfoCore at h
  cases hei : rpc.epochInfo with
  | error e => rw [hei] at h; exact absurd h (by simp)
  | ok ei =>
  rw [hei] at h
  cases hir : rpc.inflationRate with
  | error e => rw [hir] at h; exact absurd h (by simp)
  | ok ir =>
  rw [hir] at h
  cases hsi : rpc.supply with
  | error e => rw [hsi] at h; exact absurd h (by simp)
  | ok si =>
  rw [hsi] at h
  cases hsl : rpc.slot with
  | error e => rw [hsl] at h; exact absurd h (by simp)
  | ok sl =>
  rw [hsl] at h
  cases hcn : rpc.clusterNodes with
  | error e => rw [hcn] at h; exact absurd h (by simp)
  | ok cn =>
  rw [hcn] at h
  cases hva : rpc.voteAccounts with
  | error e => rw [hva] at h; exact absurd h (by simp)
  | ok va =>
  rw [hva] at h
  simp only [Except.ok.injEq] at h
  subst h
  exact processNetwork_of_buildDict ei ir si sl cn va pvs

/-- An RPC backend on which every remote call succeeds with minimal
data. -/
def rpcAllOk : RpcBackend :=
  ⟨Except.ok [("epoch", JVal.num 7)], Except.ok [("total", JVal.num 1)],
   Except.ok [], Except.ok (JVal.num 0), Except.ok [],
   Except.ok ⟨none, none⟩, Except.ok []⟩

/-- The dict that `rpcAllOk`'s network-info fetch returns. -/
def fetchedDictOk : List (String × JVal) :=
  buildNetworkDict [("epoch", JVal.num 7)] [("total", JVal.num 1)] []
    (JVal.num 0) [] ⟨none, none⟩

/-- Witness for C10 at a concrete successful backend. -/
theorem claim10_fetch_processor_key_mismatch_witness :
    (processNetworkInfo fetchedDictOk []).epoch_current = 0 ∧
    (processNetworkInfo fetchedDictOk []).slots_in_epoch = 0 ∧
    (processNetworkInfo fetchedDictOk []).slot_index = 0 ∧
    (processNetworkInfo fetchedDictOk []).progress_percentage = 0 ∧
    (processNetworkInfo fetchedDictOk []).hours_remaining = 0 ∧
    (processNetworkInfo fetchedDictOk []).inflation_total = 0 ∧
    (processNetworkInfo fetchedDictOk []).inflation_validator = 0 ∧
    (processNetworkInfo fetchedDictOk []).inflation_foundation = 0 ∧
    (processNetworkInfo fetchedDictOk []).supply_total = 0 ∧
    (processNetworkInfo fetchedDictOk []).supply_circulating = 0 ∧
    (processNetworkInfo fetchedDictOk []).staking_ratio_ = 0 ∧
    (processNetworkInfo fetchedDictOk []).current_slot = 0 ∧
    (processNetworkInfo fetchedDictOk []).node_count = 0 :=
  claim10_fetch_processor_key_mismatch rpcAllOk fetchedDictOk rfl []
